import Mathlib

/-!
# Verification of dagster's CLI workspace target resolution

Shallow embedding of `python_modules/dagster/dagster/cli/workspace/cli_target.py`:
the load-target resolver (`created_workspace_load_target`), the working-directory
rule, the code-pointer dictionary builder, the repository-origin builder, and the
workspace navigation functions (location / repository / pipeline selection).

Python's flat `kwargs` option map is embedded as a structure with one typed field
per recognized CLI option; `kwargs.get(key)` truthiness is `Kwargs.truthy`.
`click.UsageError` and `dagster.check` failures become the two constructors of
`CliErr`; functions that raise become functions into `Except CliErr`.
Process-environment reads (`os.path.exists("workspace.yaml")`, `os.getcwd()`,
`sys.executable`) are threaded through an explicit `Env` value.
-/

namespace CliTarget

/-- Python truthiness of an optional string CLI option: absent (`None`) and the
empty string are falsy, any other string is truthy. -/
def strTruthy : Option String → Bool
  | none => false
  | some s => !(s == "")

/-- Python truthiness of an optional integer CLI option (`--grpc-port`):
absent and `0` are falsy. -/
def intTruthy : Option Int → Bool
  | none => false
  | some n => !(n == 0)

/-- The flat CLI option map produced by click, one typed field per recognized
option of `cli_target.py`.  Field `attr` stands for the `attribute` option
(`attribute` is a Lean keyword); all other fields keep the Python kwarg names.
`workspace` is a repeatable path option, so it is a list. -/
structure Kwargs where
  empty_workspace : Bool
  workspace : List String
  python_file : Option String
  working_directory : Option String
  empty_working_directory : Bool
  package_name : Option String
  module_name : Option String
  attr : Option String
  repository_yaml : Option String
  grpc_host : Option String
  grpc_port : Option Int
  grpc_socket : Option String
  repository : Option String
  location : Option String
  pipeline : Option String
deriving DecidableEq

/-- The option map with no option supplied (every flag unset, every value `None`),
i.e. what click passes when the user gives no arguments. -/
def kwargsNone : Kwargs :=
  ⟨false, [], none, none, false, none, none, none, none, none, none, none, none, none, none⟩

/-- The string keys used by `kwargs.get(key)` in the source's key lists. -/
inductive Key
  | workspace
  | python_file
  | working_directory
  | empty_working_directory
  | package_name
  | module_name
  | attr
  | repository_yaml
  | grpc_host
  | grpc_port
  | grpc_socket
deriving DecidableEq

/-- Truthiness of `kwargs.get(key)` for each key, following Python semantics for
each option's type (list: nonempty; flag: itself; string: nonempty; int: nonzero). -/
def Kwargs.truthy (k : Kwargs) : Key → Bool
  | .workspace => !k.workspace.isEmpty
  | .python_file => strTruthy k.python_file
  | .working_directory => strTruthy k.working_directory
  | .empty_working_directory => k.empty_working_directory
  | .package_name => strTruthy k.package_name
  | .module_name => strTruthy k.module_name
  | .attr => strTruthy k.attr
  | .repository_yaml => strTruthy k.repository_yaml
  | .grpc_host => strTruthy k.grpc_host
  | .grpc_port => intTruthy k.grpc_port
  | .grpc_socket => strTruthy k.grpc_socket

/-- The `WORKSPACE_CLI_ARGS` tuple from the source. -/
def WORKSPACE_CLI_ARGS : List Key :=
  [.workspace, .python_file, .working_directory, .empty_working_directory,
   .package_name, .module_name, .attr, .repository_yaml,
   .grpc_host, .grpc_port, .grpc_socket]

/-- Environment facts read by the resolver: whether `./workspace.yaml` exists,
the current working directory, and `sys.executable`. -/
structure Env where
  workspaceYamlExists : Bool
  cwd : String
  executablePath : String

/-- Failures raised by `cli_target.py`: `usage` is `click.UsageError` with its
message; `checkFailed` is a `dagster.check` framework failure (`check.invariant`
/ `check.failed`) with its description. -/
inductive CliErr
  | usage (msg : String)
  | checkFailed (msg : String)
deriving DecidableEq

/-- Whether an error is a `click.UsageError`. -/
def CliErr.isUsage : CliErr → Bool
  | .usage _ => true
  | .checkFailed _ => false

/-- The default message of `_cli_load_invariant`. -/
def invalidCliArgsMsg : String :=
  "Invalid set of CLI arguments for loading repository/pipeline. See --help for details."

/-- `_cli_load_invariant(condition)`: raises the generic usage error when the
condition is false. -/
def _cli_load_invariant (condition : Bool) : Except CliErr Unit :=
  if condition then .ok () else .error (.usage invalidCliArgsMsg)

/-- `_check_cli_arguments_none(kwargs, *keys)`: fails with the generic usage
error on the first truthy key. -/
def _check_cli_arguments_none (k : Kwargs) : List Key → Except CliErr Unit
  | [] => .ok ()
  | key :: rest =>
    match _cli_load_invariant (!k.truthy key) with
    | .error e => .error e
    | .ok _ => _check_cli_arguments_none k rest

/-- `are_all_keys_empty(kwargs, keys)`. -/
def are_all_keys_empty (k : Kwargs) (keys : List Key) : Bool :=
  keys.all fun key => !k.truthy key

/-- The `LoadTarget` variants constructed by `created_workspace_load_target`
(classes imported from `dagster.core.workspace.load_target`), with exactly the
fields passed at the construction sites in `cli_target.py`. -/
inductive LoadTarget
  | EmptyWorkspaceTarget
  | WorkspaceFileTarget (paths : List String)
  | PythonFileTarget (python_file : Option String) (attr : Option String)
      (working_directory : Option String) (location_name : Option String)
  | ModuleTarget (module_name : Option String) (attr : Option String)
      (location_name : Option String)
  | PackageTarget (package_name : Option String) (attr : Option String)
      (location_name : Option String)
  | GrpcServerTarget (port : Option Int) (socket : Option String) (host : String)
      (location_name : Option String)
deriving DecidableEq

/-- `get_working_directory_from_kwargs(kwargs)`: `None` under the
`--empty-working-directory` flag, else the given directory if truthy, else
`os.getcwd()`. -/
def get_working_directory_from_kwargs (env : Env) (k : Kwargs) : Option String :=
  if k.empty_working_directory then none
  else if strTruthy k.working_directory then k.working_directory else some env.cwd

/-- Keys checked absent in the `workspace` branch of `created_workspace_load_target`. -/
def workspaceBranchChecks : List Key :=
  [.python_file, .working_directory, .empty_working_directory, .module_name,
   .package_name, .attr, .grpc_host, .grpc_port, .grpc_socket]

/-- Keys checked absent in the `python_file` branch. -/
def pythonFileBranchChecks : List Key :=
  [.module_name, .package_name, .grpc_host, .grpc_port, .grpc_socket]

/-- Keys checked absent in the `module_name` branch. -/
def moduleBranchChecks : List Key :=
  [.package_name, .working_directory, .empty_working_directory, .grpc_host,
   .grpc_port, .grpc_socket]

/-- Keys checked absent in the `package_name` branch. -/
def packageBranchChecks : List Key :=
  [.working_directory, .empty_working_directory, .grpc_host, .grpc_port, .grpc_socket]

/-- Keys checked absent in the `grpc_port` branch. -/
def grpcPortBranchChecks : List Key :=
  [.attr, .working_directory, .empty_working_directory, .grpc_socket]

/-- Keys checked absent in the `grpc_socket` branch. -/
def grpcSocketBranchChecks : List Key :=
  [.attr, .working_directory, .empty_working_directory]

/-- The gRPC host value: `kwargs.get("grpc_host") if kwargs.get("grpc_host") else "localhost"`. -/
def grpcHostValue (k : Kwargs) : String :=
  if strTruthy k.grpc_host then k.grpc_host.getD "" else "localhost"

/-- `created_workspace_load_target(kwargs)`: turns the option map into exactly
one `LoadTarget`, or fails with a usage error. -/
def created_workspace_load_target (env : Env) (k : Kwargs) : Except CliErr LoadTarget :=
  if are_all_keys_empty k WORKSPACE_CLI_ARGS then
    if k.empty_workspace then .ok .EmptyWorkspaceTarget
    else if env.workspaceYamlExists then .ok (.WorkspaceFileTarget ["workspace.yaml"])
    else .error (.usage "No arguments given and workspace.yaml not found.")
  else if k.truthy .workspace then
    match _check_cli_arguments_none k workspaceBranchChecks with
    | .error e => .error e
    | .ok _ => .ok (.WorkspaceFileTarget k.workspace)
  else if k.truthy .python_file then
    match _check_cli_arguments_none k pythonFileBranchChecks with
    | .error e => .error e
    | .ok _ =>
      .ok (.PythonFileTarget k.python_file k.attr (get_working_directory_from_kwargs env k) none)
  else if k.truthy .module_name then
    match _check_cli_arguments_none k moduleBranchChecks with
    | .error e => .error e
    | .ok _ => .ok (.ModuleTarget k.module_name k.attr none)
  else if k.truthy .package_name then
    match _check_cli_arguments_none k packageBranchChecks with
    | .error e => .error e
    | .ok _ => .ok (.PackageTarget k.package_name k.attr none)
  else if k.truthy .grpc_port then
    match _check_cli_arguments_none k grpcPortBranchChecks with
    | .error e => .error e
    | .ok _ => .ok (.GrpcServerTarget k.grpc_port none (grpcHostValue k) none)
  else if k.truthy .grpc_socket then
    match _check_cli_arguments_none k grpcSocketBranchChecks with
    | .error e => .error e
    | .ok _ => .ok (.GrpcServerTarget none k.grpc_socket (grpcHostValue k) none)
  else .error (.usage invalidCliArgsMsg)

/-- `_sorted_quoted(strings)`: renders names sorted lexicographically,
single-quoted, comma-separated, in brackets. -/
def _sorted_quoted (strings : List String) : String :=
  "[" ++ ", ".intercalate ((strings.insertionSort (· ≤ ·)).map
    (fun s => "\x27" ++ s ++ "\x27")) ++ "]"

/-! ## Python dict semantics

The source builds `name → value` dicts by comprehension; a Python dict keeps
the first occurrence's position but the *last* assignment's value for a
duplicated key.  We embed dicts as association lists built by `dictInsert`. -/

/-- Insert with Python dict assignment semantics: update the value in place if
the key exists, else append at the end. -/
def dictInsert {α : Type} : List (String × α) → String → α → List (String × α)
  | [], key, v => [(key, v)]
  | (k2, v2) :: rest, key, v =>
    if k2 == key then (k2, v) :: rest else (k2, v2) :: dictInsert rest key v

/-- Build a Python dict from key/value pairs in order (dict comprehension). -/
def pyDict {α : Type} (l : List (String × α)) : List (String × α) :=
  l.foldl (fun acc p => dictInsert acc p.1 p.2) []

/-- Dict lookup (`d[key]` / `key in d`, as an option). -/
def lookupDict {α : Type} (d : List (String × α)) (key : String) : Option α :=
  (d.find? fun p => p.1 == key).map fun p => p.2

/-! ## Workspace navigation model

`WorkspaceRequestContext`, `RepositoryLocation`, `ExternalRepository` and
`ExternalPipeline` are external collaborators; only the accessors used by
`cli_target.py` are modelled: location names, per-location load-error state,
the location map, a location's repository dict, and a repository's pipelines. -/

/-- An external pipeline, as selected by name; `payload` abstracts all pipeline
data other than the name. -/
structure ExternalPipeline where
  name : String
  payload : Nat
deriving DecidableEq

/-- An external repository: its name and its pipelines
(`get_all_external_pipelines()`). -/
structure ExternalRepository where
  name : String
  external_pipelines : List ExternalPipeline
deriving DecidableEq

/-- A repository location: its name and its repository dict
(`get_repositories()`). -/
structure RepositoryLocation where
  name : String
  repositories : List (String × ExternalRepository)
deriving DecidableEq

/-- `repo_location.has_repository(name)`. -/
def RepositoryLocation.has_repository (loc : RepositoryLocation) (n : String) : Bool :=
  (lookupDict loc.repositories n).isSome

/-- `repo_location.get_repository(name)` (only called under `has_repository`). -/
def RepositoryLocation.get_repository (loc : RepositoryLocation) (n : String) : ExternalRepository :=
  (lookupDict loc.repositories n).getD ⟨"", []⟩

/-- The `WorkspaceRequestContext` surface used by the navigation functions:
`repository_location_names`, `has_repository_location_error` /
`get_repository_location_error` (modelled as the stringified error, when any),
and `get_repository_location`. -/
structure Workspace where
  repository_location_names : List String
  location_error : String → Option String
  locations : String → RepositoryLocation

/-- `get_repository_location_from_workspace(workspace, provided_location_name)`. -/
def get_repository_location_from_workspace (w : Workspace) (provided_location_name : Option String) :
    Except CliErr RepositoryLocation :=
  match
    (match provided_location_name with
     | none =>
       if w.repository_location_names.length = 1 then
         Except.ok (w.repository_location_names.headD "")
       else if w.repository_location_names.length = 0 then
         Except.error (CliErr.usage "No locations found in workspace")
       else
         Except.error (CliErr.usage
           ("Must provide --location as there are multiple locations available. Options are: "
             ++ _sorted_quoted w.repository_location_names))
     | some n => Except.ok n)
  with
  | .error e => .error e
  | .ok name =>
    if !w.repository_location_names.contains name then
      .error (.usage ("Location \"" ++ name ++ "\" not found in workspace. Found "
        ++ _sorted_quoted w.repository_location_names ++ " instead."))
    else if (w.location_error name).isSome then
      .error (.usage ("Error loading location \"" ++ name ++ "\": "
        ++ (w.location_error name).getD ""))
    else .ok (w.locations name)

/-- `get_external_repository_from_repo_location(repo_location, provided_repo_name)`. -/
def get_external_repository_from_repo_location (loc : RepositoryLocation)
    (provided_repo_name : Option String) : Except CliErr ExternalRepository :=
  if loc.repositories.isEmpty then
    .error (.checkFailed "There should be at least one repo.")
  else
    match provided_repo_name with
    | none =>
      if loc.repositories.length = 1 then .ok (loc.repositories.headD ("", ⟨"", []⟩)).2
      else
        .error (.usage ("Must provide --repository as there is more than one repository in "
          ++ loc.name ++ ". Options are: " ++ _sorted_quoted (loc.repositories.map Prod.fst) ++ "."))
    | some n =>
      if !loc.has_repository n then
        .error (.usage ("Repository \"" ++ n ++ "\" not found in location \"" ++ loc.name
          ++ "\". Found " ++ _sorted_quoted (loc.repositories.map Prod.fst) ++ " instead."))
      else .ok (loc.get_repository n)

/-- The pipeline dict `{ep.name: ep for ep in external_repo.get_all_external_pipelines()}`. -/
def pipelineDict (repo : ExternalRepository) : List (String × ExternalPipeline) :=
  pyDict (repo.external_pipelines.map fun ep => (ep.name, ep))

/-- `get_external_pipeline_from_external_repo(external_repo, provided_pipeline_name)`.
The bare `check.invariant(external_pipelines)` carries no description. -/
def get_external_pipeline_from_external_repo (repo : ExternalRepository)
    (provided_pipeline_name : Option String) : Except CliErr ExternalPipeline :=
  if (pipelineDict repo).isEmpty then .error (.checkFailed "")
  else
    match provided_pipeline_name with
    | none =>
      if (pipelineDict repo).length = 1 then .ok ((pipelineDict repo).headD ("", ⟨"", 0⟩)).2
      else
        .error (.usage ("Must provide --pipeline as there is more than one pipeline in "
          ++ repo.name ++ ". Options are: "
          ++ _sorted_quoted ((pipelineDict repo).map Prod.fst) ++ "."))
    | some n =>
      match lookupDict (pipelineDict repo) n with
      | some ep => .ok ep
      | none =>
        .error (.usage ("Pipeline \"" ++ n ++ "\" not found in repository \"" ++ repo.name
          ++ "\". Found " ++ _sorted_quoted ((pipelineDict repo).map Prod.fst) ++ " instead."))

/-- `get_external_repository_from_kwargs`, given the externally opened workspace:
select the location from `kwargs.get("location")`, then the repository from
`kwargs.get("repository")`. -/
def get_external_repository_from_kwargs (w : Workspace) (k : Kwargs) :
    Except CliErr ExternalRepository :=
  match get_repository_location_from_workspace w k.location with
  | .error e => .error e
  | .ok loc => get_external_repository_from_repo_location loc k.repository

/-! ## Code pointers and origins -/

/-- The `CodePointer` variants built by `CodePointer.from_python_file`,
`CodePointer.from_module` and `CodePointer.from_python_package` (constructor
names are dagster's concrete pointer classes).  Equality is structural. -/
inductive CodePointer
  | FileCodePointer (python_file : String) (fn_name : String) (working_directory : Option String)
  | ModuleCodePointer (module : String) (fn_name : String)
  | PackageCodePointer (module : String) (fn_name : String)
deriving DecidableEq

/-- `RepositoryPythonOrigin(executable_path, code_pointer)`. -/
structure RepositoryPythonOrigin where
  executable_path : String
  code_pointer : CodePointer
deriving DecidableEq

/-- One entry of `get_loadable_targets(...)` (external collaborator): its
`attribute`, together with the repository name that
`repository_def_from_target_def(loadable_target.target_definition).name`
produces for it.  The source uses nothing else of a loadable target. -/
structure LoadableTarget where
  attr : String
  repoName : String
deriving DecidableEq

/-- `_get_code_pointer_dict_from_kwargs(kwargs)`.  The enumeration
`get_loadable_targets(python_file, module_name, package_name, working_directory,
attribute)` is an external collaborator, passed in as `glt`. -/
def _get_code_pointer_dict_from_kwargs (env : Env) (glt : List LoadableTarget) (k : Kwargs) :
    Except CliErr (List (String × CodePointer)) :=
  if strTruthy k.python_file then
    match _check_cli_arguments_none k [.module_name, .package_name] with
    | .error e => .error e
    | .ok _ =>
      .ok (pyDict (glt.map fun lt =>
        (lt.repoName, CodePointer.FileCodePointer (k.python_file.getD "") lt.attr
          (get_working_directory_from_kwargs env k))))
  else if strTruthy k.module_name then
    match _check_cli_arguments_none k [.python_file, .working_directory, .package_name] with
    | .error e => .error e
    | .ok _ =>
      .ok (pyDict (glt.map fun lt =>
        (lt.repoName, CodePointer.ModuleCodePointer (k.module_name.getD "") lt.attr)))
  else if strTruthy k.package_name then
    match _check_cli_arguments_none k [.module_name, .python_file, .working_directory] with
    | .error e => .error e
    | .ok _ =>
      .ok (pyDict (glt.map fun lt =>
        (lt.repoName, CodePointer.PackageCodePointer (k.package_name.getD "") lt.attr)))
  else .error (.checkFailed "Must specify a Python file or module name")

/-- `get_repository_python_origin_from_kwargs(kwargs)`. -/
def get_repository_python_origin_from_kwargs (env : Env) (glt : List LoadableTarget) (k : Kwargs) :
    Except CliErr RepositoryPythonOrigin :=
  if !(strTruthy k.python_file || strTruthy k.module_name || strTruthy k.package_name) then
    .error (.usage "Must specify a python file or module name")
  else if strTruthy k.attr && !strTruthy k.repository then
    match
      (if strTruthy k.python_file then
        match _check_cli_arguments_none k [.module_name, .package_name] with
        | .error e => Except.error e
        | .ok _ =>
          Except.ok (CodePointer.FileCodePointer (k.python_file.getD "") (k.attr.getD "")
            (get_working_directory_from_kwargs env k))
      else if strTruthy k.module_name then
        match _check_cli_arguments_none k [.python_file, .working_directory, .package_name] with
        | .error e => Except.error e
        | .ok _ => Except.ok (CodePointer.ModuleCodePointer (k.module_name.getD "") (k.attr.getD ""))
      else if strTruthy k.package_name then
        match _check_cli_arguments_none k [.python_file, .working_directory, .module_name] with
        | .error e => Except.error e
        | .ok _ =>
          Except.ok (CodePointer.PackageCodePointer (k.package_name.getD "") (k.attr.getD ""))
      else Except.error (CliErr.checkFailed "Must specify a Python file or module name"))
    with
    | .error e => .error e
    | .ok cp => .ok ⟨env.executablePath, cp⟩
  else
    match _get_code_pointer_dict_from_kwargs env glt k with
    | .error e => .error e
    | .ok cpd =>
      match k.repository with
      | none =>
        if cpd.length = 1 then .ok ⟨env.executablePath, (cpd.headD ("", .ModuleCodePointer "" "")).2⟩
        else
          .error (.usage ("Must provide --repository as there is more than one repository. "
            ++ "Options are: " ++ _sorted_quoted (cpd.map Prod.fst) ++ "."))
      | some rn =>
        match lookupDict cpd rn with
        | some cp => .ok ⟨env.executablePath, cp⟩
        | none =>
          .error (.usage ("Repository \"" ++ rn ++ "\" not found. Found "
            ++ _sorted_quoted (cpd.map Prod.fst) ++ " instead."))

/-! ## Branch-shape abstraction of `created_workspace_load_target`

For the exhaustive mutual-exclusion proof the control flow of the resolver is
restated over an arbitrary truthiness assignment `t : Key → Bool`; this makes
the exclusion property a finite boolean statement that `decide` settles. -/

/-- The possible control-flow outcomes of `created_workspace_load_target`. -/
inductive Outcome
  | okEmpty
  | okDefaultWorkspace
  | noTarget
  | conflictOrInvalid
  | okWorkspace
  | okFile
  | okModule
  | okPackage
  | okPort
  | okSocket
deriving DecidableEq

/-- The branch structure of `created_workspace_load_target`, over a truthiness
assignment. -/
def shapeOutcome (empty_workspace yamlExists : Bool) (t : Key → Bool) : Outcome :=
  if WORKSPACE_CLI_ARGS.all (fun key => !t key) then
    if empty_workspace then .okEmpty
    else if yamlExists then .okDefaultWorkspace
    else .noTarget
  else if t .workspace then
    if workspaceBranchChecks.any t then .conflictOrInvalid else .okWorkspace
  else if t .python_file then
    if pythonFileBranchChecks.any t then .conflictOrInvalid else .okFile
  else if t .module_name then
    if moduleBranchChecks.any t then .conflictOrInvalid else .okModule
  else if t .package_name then
    if packageBranchChecks.any t then .conflictOrInvalid else .okPackage
  else if t .grpc_port then
    if grpcPortBranchChecks.any t then .conflictOrInvalid else .okPort
  else if t .grpc_socket then
    if grpcSocketBranchChecks.any t then .conflictOrInvalid else .okSocket
  else .conflictOrInvalid

/-- The six options that govern a mutual-exclusion group of the resolution
order (spec section 4.1, rules 2 to 7). -/
def governingKeys : List Key :=
  [.workspace, .python_file, .module_name, .package_name, .grpc_port, .grpc_socket]

/-- Each group's forbidden companion options, as listed by the spec's
resolution rules (section 4.1). -/
def forbiddenCompanions : Key → List Key
  | .workspace =>
    [.python_file, .working_directory, .empty_working_directory, .module_name,
     .package_name, .attr, .grpc_host, .grpc_port, .grpc_socket]
  | .python_file => [.module_name, .package_name, .grpc_port, .grpc_socket]
  | .module_name =>
    [.package_name, .working_directory, .empty_working_directory, .grpc_port, .grpc_socket]
  | .package_name => [.working_directory, .empty_working_directory, .grpc_port, .grpc_socket]
  | .grpc_port => [.attr, .working_directory, .empty_working_directory, .grpc_socket]
  | .grpc_socket => [.attr, .working_directory, .empty_working_directory]
  | _ => []

/-- The claim's hypothesis: the option map holds two or more options from
different mutual-exclusion groups — two governing options of different groups,
or a governing option together with one of its group's forbidden companions. -/
def hasConflictingTargets (t : Key → Bool) : Bool :=
  (governingKeys.any fun g1 => governingKeys.any fun g2 => g1 != g2 && t g1 && t g2)
  || (governingKeys.any fun g => t g && (forbiddenCompanions g).any t)

/-- Tabulate a truthiness assignment from the eleven per-key booleans. -/
def keyTable (ws pf wd ewd pkg mn at_ ry gh gp gs : Bool) : Key → Bool
  | .workspace => ws
  | .python_file => pf
  | .working_directory => wd
  | .empty_working_directory => ewd
  | .package_name => pkg
  | .module_name => mn
  | .attr => at_
  | .repository_yaml => ry
  | .grpc_host => gh
  | .grpc_port => gp
  | .grpc_socket => gs

/-- Whether a result is a `click.UsageError` failure. -/
def errIsUsage {α : Type} : Except CliErr α → Bool
  | .error e => e.isUsage
  | .ok _ => false

/-! ## Concrete inputs used by the witnesses -/

/-- A concrete environment: `workspace.yaml` exists, cwd `/cwd`, interpreter `/python`. -/
def env0 : Env := ⟨true, "/cwd", "/python"⟩

/-- A concrete environment without a `workspace.yaml` in the cwd. -/
def envNoYaml : Env := ⟨false, "/cwd", "/python"⟩

/-- Options for C1's witness: a python file together with a module name. -/
def kwC1 : Kwargs := { kwargsNone with python_file := some "a.py", module_name := some "m" }

/-- Options for C4's counterexample: module plus attribute plus a stray working
directory, no repository name. -/
def kwC4 : Kwargs :=
  { kwargsNone with module_name := some "m", attr := some "a", working_directory := some "/tmp" }

/-- Options for C4's amended witness: module plus attribute only. -/
def kwC4a : Kwargs := { kwargsNone with module_name := some "m", attr := some "a" }

/-- Options for C7's and C9's witnesses: a python file target. -/
def kwFile : Kwargs := { kwargsNone with python_file := some "repo.py" }

/-- Options for C10's witness: only a gRPC host. -/
def kwC10 : Kwargs := { kwargsNone with grpc_host := some "somehost" }

/-- Options for C5's witness: only the `--empty-workspace` flag. -/
def kwEmptyWs : Kwargs := { kwargsNone with empty_workspace := true }

/-- Options for C8's witness: an explicit working directory. -/
def kwWd : Kwargs := { kwargsNone with working_directory := some "/w" }

/-- Options for C8's witness: the empty-working-directory flag overriding an
explicit directory. -/
def kwEwd : Kwargs :=
  { kwargsNone with empty_working_directory := true, working_directory := some "/w" }

/-- A workspace with no locations. -/
def wsZero : Workspace := ⟨[], fun _ => none, fun n => ⟨n, []⟩⟩

/-- A workspace with a single healthy location `loc1`. -/
def wsOne : Workspace := ⟨["loc1"], fun _ => none, fun n => ⟨n, []⟩⟩

/-- A workspace with two healthy locations. -/
def wsTwo : Workspace := ⟨["loc1", "loc2"], fun _ => none, fun n => ⟨n, []⟩⟩

/-- A workspace whose sole location `loc1` failed to load. -/
def wsErr : Workspace :=
  ⟨["loc1"], fun n => if n == "loc1" then some "boom" else none, fun n => ⟨n, []⟩⟩

/-- A concrete pipeline used by the selection witnesses. -/
def pipeP1 : ExternalPipeline := ⟨"p1", 0⟩

/-- A concrete repository `r1` with one pipeline. -/
def repoR1 : ExternalRepository := ⟨"r1", [pipeP1]⟩

/-- A location holding just `r1`. -/
def locA : RepositoryLocation := ⟨"locA", [("r1", repoR1)]⟩

/-- Two loadable targets with the same repository name `r`: the second must win. -/
def gltDup : List LoadableTarget := [⟨"a", "r"⟩, ⟨"b", "r"⟩]

end CliTarget

namespace CliTarget

/-! ## Helper lemmas -/

/-- `_check_cli_arguments_none` fails with the generic usage error exactly when
some checked key is truthy. -/
theorem check_none_eq (k : Kwargs) (keys : List Key) :
    _check_cli_arguments_none k keys =
      if keys.any k.truthy then .error (.usage invalidCliArgsMsg) else .ok () := by
  induction keys with
  | nil => rfl
  | cons key rest ih =>
    by_cases hk : k.truthy key = true
    · simp [_check_cli_arguments_none, _cli_load_invariant, hk]
    · simp only [Bool.not_eq_true] at hk
      simp [_check_cli_arguments_none, _cli_load_invariant, hk, ih]

/-! ## C5: resolution with no recognized option present -/

/-- C5: when no option of `WORKSPACE_CLI_ARGS` is truthy, the resolver returns
the empty workspace target under the `--empty-workspace` flag; otherwise the
default `workspace.yaml` file target when that file exists in the current
directory; otherwise it fails with the no-target usage error. -/
theorem no_options_default_resolution (env : Env) (k : Kwargs)
    (h : are_all_keys_empty k WORKSPACE_CLI_ARGS = true) :
    (k.empty_workspace = true →
      created_workspace_load_target env k = .ok .EmptyWorkspaceTarget) ∧
    (k.empty_workspace = false → env.workspaceYamlExists = true →
      created_workspace_load_target env k = .ok (.WorkspaceFileTarget ["workspace.yaml"])) ∧
    (k.empty_workspace = false → env.workspaceYamlExists = false →
      created_workspace_load_target env k =
        .error (.usage "No arguments given and workspace.yaml not found.")) := by
  refine ⟨fun h1 => ?_, fun h1 h2 => ?_, fun h1 h2 => ?_⟩
  · simp [created_workspace_load_target, h, h1]
  · simp [created_workspace_load_target, h, h1, h2]
  · simp [created_workspace_load_target, h, h1, h2]

/-- C5 witness: with only the flag, the empty target; with nothing at all, the
default file target when `workspace.yaml` exists, the usage error when not. -/
theorem no_options_default_resolution_witness :
    created_workspace_load_target env0 kwEmptyWs = .ok .EmptyWorkspaceTarget ∧
    created_workspace_load_target env0 kwargsNone = .ok (.WorkspaceFileTarget ["workspace.yaml"]) ∧
    created_workspace_load_target envNoYaml kwargsNone =
      .error (.usage "No arguments given and workspace.yaml not found.") :=
  ⟨(no_options_default_resolution env0 kwEmptyWs (by decide)).1 rfl,
   (no_options_default_resolution env0 kwargsNone (by decide)).2.1 rfl rfl,
   (no_options_default_resolution envNoYaml kwargsNone (by decide)).2.2 rfl rfl⟩

/-! ## C8: working-directory resolution -/

/-- C8: the working directory for a python-file target is `None` under the
`--empty-working-directory` flag regardless of any explicit directory, else the
explicit directory when truthy, else the process's current directory. -/
theorem working_directory_resolution (env : Env) (k : Kwargs) :
    (k.empty_working_directory = true → get_working_directory_from_kwargs env k = none) ∧
    (k.empty_working_directory = false → strTruthy k.working_directory = true →
      get_working_directory_from_kwargs env k = k.working_directory) ∧
    (k.empty_working_directory = false → strTruthy k.working_directory = false →
      get_working_directory_from_kwargs env k = some env.cwd) := by
  refine ⟨fun h1 => ?_, fun h1 h2 => ?_, fun h1 h2 => ?_⟩
  · simp [get_working_directory_from_kwargs, h1]
  · simp [get_working_directory_from_kwargs, h1, h2]
  · simp [get_working_directory_from_kwargs, h1, h2]

/-- C8 witness: flag set (with an explicit directory) gives `None`; explicit
directory alone is returned; nothing gives the cwd. -/
theorem working_directory_resolution_witness :
    get_working_directory_from_kwargs env0 kwEwd = none ∧
    get_working_directory_from_kwargs env0 kwWd = some "/w" ∧
    get_working_directory_from_kwargs env0 kwargsNone = some "/cwd" :=
  ⟨(working_directory_resolution env0 kwEwd).1 rfl,
   by rw [(working_directory_resolution env0 kwWd).2.1 rfl rfl]; rfl,
   by rw [(working_directory_resolution env0 kwargsNone).2.2 rfl rfl]; rfl⟩

/-! ## C10: a gRPC host alone -/

/-- C10: when the gRPC host option is the only truthy recognized option, the
resolver reaches the final catch-all and fails with the generic
invalid-combination usage error (no `GrpcServerTarget`, no default fallback). -/
theorem grpc_host_alone_invalid_combination (env : Env) (k : Kwargs)
    (hh : k.truthy .grpc_host = true)
    (h1 : k.truthy .workspace = false) (h2 : k.truthy .python_file = false)
    (_h3 : k.truthy .working_directory = false) (_h4 : k.truthy .empty_working_directory = false)
    (h5 : k.truthy .package_name = false) (h6 : k.truthy .module_name = false)
    (_h7 : k.truthy .attr = false) (_h8 : k.truthy .repository_yaml = false)
    (h9 : k.truthy .grpc_port = false) (h10 : k.truthy .grpc_socket = false) :
    created_workspace_load_target env k = .error (.usage invalidCliArgsMsg) := by
  have hne : are_all_keys_empty k WORKSPACE_CLI_ARGS = false := by
    simp [are_all_keys_empty, WORKSPACE_CLI_ARGS, hh]
  simp [created_workspace_load_target, hne, h1, h2, h5, h6, h9, h10]

/-- C10 witness: `--grpc-host somehost` alone fails with the generic usage error. -/
theorem grpc_host_alone_invalid_combination_witness :
    created_workspace_load_target env0 kwC10 = .error (.usage invalidCliArgsMsg) :=
  grpc_host_alone_invalid_combination env0 kwC10 (by decide) (by decide) (by decide)
    (by decide) (by decide) (by decide) (by decide) (by decide) (by decide) (by decide)
    (by decide)

/-! ## C9: the empty-workspace flag next to another target option -/

/-- Setting the `empty_workspace` field does not change any key's truthiness. -/
theorem truthy_set_empty_workspace (k : Kwargs) (b : Bool) (key : Key) :
    ({ k with empty_workspace := b } : Kwargs).truthy key = k.truthy key := by
  cases key <;> rfl

/-- C9: when some recognized target option is truthy, the resolver never reads
the `--empty-workspace` flag: the flag is silently ignored and the other
option's target is returned (shown for a python-file target). -/
theorem empty_workspace_flag_ignored_with_other_targets (env : Env) (k : Kwargs)
    (h : are_all_keys_empty k WORKSPACE_CLI_ARGS = false) :
    created_workspace_load_target env { k with empty_workspace := true } =
      created_workspace_load_target env k ∧
    (k.truthy .workspace = false → k.truthy .python_file = true →
      pythonFileBranchChecks.any k.truthy = false →
      created_workspace_load_target env { k with empty_workspace := true } =
        .ok (.PythonFileTarget k.python_file k.attr
          (get_working_directory_from_kwargs env k) none)) := by
  have hae : ∀ keys, are_all_keys_empty { k with empty_workspace := true } keys =
      are_all_keys_empty k keys := by
    intro keys
    simp [are_all_keys_empty, truthy_set_empty_workspace]
  have hchk : ∀ keys, _check_cli_arguments_none { k with empty_workspace := true } keys =
      _check_cli_arguments_none k keys := by
    intro keys
    induction keys with
    | nil => rfl
    | cons key rest ih =>
      simp [_check_cli_arguments_none, truthy_set_empty_workspace, ih]
  have heq : created_workspace_load_target env { k with empty_workspace := true } =
      created_workspace_load_target env k := by
    simp only [created_workspace_load_target, hae, h, truthy_set_empty_workspace, hchk,
      get_working_directory_from_kwargs, grpcHostValue, Bool.false_eq_true, if_false]
  refine ⟨heq, fun hw hf hc => ?_⟩
  rw [heq]
  simp [created_workspace_load_target, h, hw, hf, check_none_eq, hc]

/-- C9 witness: a python file with the empty-workspace flag resolves exactly
like the python file alone, to a `PythonFileTarget`. -/
theorem empty_workspace_flag_ignored_witness :
    created_workspace_load_target env0 { kwFile with empty_workspace := true } =
      created_workspace_load_target env0 kwFile ∧
    created_workspace_load_target env0 { kwFile with empty_workspace := true } =
      .ok (.PythonFileTarget (some "repo.py") none (some "/cwd") none) := by
  have h := empty_workspace_flag_ignored_with_other_targets env0 kwFile (by decide)
  exact ⟨h.1, by rw [h.2 (by decide) (by decide) (by decide)]; rfl⟩

/-! ## C2: location selection with no requested name -/

/-- C2: with no requested location name, the navigation over the workspace's
location candidates returns the sole location of a one-entry workspace (when it
has no load error — an errored location is rejected, see the load-error
theorem), fails with the empty-message on a zero-entry workspace, and fails
with the ambiguous-selection usage error on a multi-entry workspace, rendering
the candidate names via `_sorted_quoted` — which produces exactly the names,
sorted lexicographically, single-quoted, in bracketed comma-separated form. -/
theorem location_selection_none_one_many (w : Workspace) :
    (w.repository_location_names = [] →
      get_repository_location_from_workspace w none =
        .error (.usage "No locations found in workspace")) ∧
    (∀ n, w.repository_location_names = [n] → w.location_error n = none →
      get_repository_location_from_workspace w none = .ok (w.locations n)) ∧
    (2 ≤ w.repository_location_names.length →
      get_repository_location_from_workspace w none =
        .error (.usage
          ("Must provide --location as there are multiple locations available. Options are: "
            ++ _sorted_quoted w.repository_location_names))) ∧
    (∀ names : List String,
      List.Sorted (· ≤ ·) (names.insertionSort (· ≤ ·)) ∧
      (names.insertionSort (· ≤ ·)).Perm names ∧
      _sorted_quoted names =
        "[" ++ ", ".intercalate ((names.insertionSort (· ≤ ·)).map
          (fun s => "\x27" ++ s ++ "\x27")) ++ "]") := by
  refine ⟨fun h => ?_, fun n h he => ?_, fun h => ?_, fun names => ?_⟩
  · simp [get_repository_location_from_workspace, h]
  · simp [get_repository_location_from_workspace, h, he]
  · have h1 : w.repository_location_names.length ≠ 1 := by omega
    have h0 : w.repository_location_names.length ≠ 0 := by omega
    simp [get_repository_location_from_workspace, h1, h0]
  · exact ⟨List.sorted_insertionSort _ _, List.perm_insertionSort _ _, rfl⟩

/-- C2 witness: the three cases at concrete workspaces of sizes 0, 1 and 2. -/
theorem location_selection_none_one_many_witness :
    get_repository_location_from_workspace wsZero none =
      .error (.usage "No locations found in workspace") ∧
    get_repository_location_from_workspace wsOne none = .ok (wsOne.locations "loc1") ∧
    get_repository_location_from_workspace wsTwo none =
      .error (.usage
        ("Must provide --location as there are multiple locations available. Options are: "
          ++ _sorted_quoted wsTwo.repository_location_names)) :=
  ⟨(location_selection_none_one_many wsZero).1 rfl,
   (location_selection_none_one_many wsOne).2.1 "loc1" rfl rfl,
   (location_selection_none_one_many wsTwo).2.2.1 (by decide)⟩

/-! ## C6: navigation against an errored location -/

/-- C6: whenever the selected location (the sole one with no name requested, or
an explicitly named member) has a load error, location navigation fails with
the load-error usage message carrying the stringified error, and the composed
location-then-repository navigation fails identically — repository selection is
never attempted (the result does not depend on the location's repositories). -/
theorem errored_location_fails_navigation (w : Workspace) (k : Kwargs) (n e : String)
    (hsel : (k.location = none ∧ w.repository_location_names = [n]) ∨
            (k.location = some n ∧ n ∈ w.repository_location_names))
    (herr : w.location_error n = some e) :
    get_repository_location_from_workspace w k.location =
      .error (.usage ("Error loading location \"" ++ n ++ "\": " ++ e)) ∧
    get_external_repository_from_kwargs w k =
      .error (.usage ("Error loading location \"" ++ n ++ "\": " ++ e)) := by
  have h1 : get_repository_location_from_workspace w k.location =
      .error (.usage ("Error loading location \"" ++ n ++ "\": " ++ e)) := by
    rcases hsel with ⟨hl, hn⟩ | ⟨hl, hn⟩
    · rw [hl]
      simp [get_repository_location_from_workspace, hn, herr]
    · rw [hl]
      simp [get_repository_location_from_workspace, hn, herr]
  exact ⟨h1, by simp [get_external_repository_from_kwargs, h1]⟩

/-- C6 witness: a workspace whose sole location `loc1` failed with `boom`
fails navigation with the load-error message, with no location option given. -/
theorem errored_location_fails_navigation_witness :
    get_repository_location_from_workspace wsErr none =
      .error (.usage ("Error loading location \"loc1\": boom")) ∧
    get_external_repository_from_kwargs wsErr kwargsNone =
      .error (.usage ("Error loading location \"loc1\": boom")) :=
  errored_location_fails_navigation wsErr kwargsNone "loc1" "boom"
    (Or.inl ⟨rfl, rfl⟩) (by decide)

/-! ## C3: selection with a supplied name -/

/-- C3 counterexample: repository selection within a location whose repository
map is empty, with a supplied name, does not fail with the not-found usage
error — it fails with the `check.invariant` framework error raised before the
not-found check. -/
theorem named_selection_empty_map_counterexample :
    get_external_repository_from_repo_location ⟨"loc1", []⟩ (some "foo") =
      .error (.checkFailed "There should be at least one repo.") ∧
    errIsUsage (get_external_repository_from_repo_location ⟨"loc1", []⟩ (some "foo")) = false := by
  exact ⟨rfl, rfl⟩

/-- C3 amended: with a supplied name and a nonempty candidate map, repository
selection (and likewise pipeline selection) returns the candidate stored under
the name when present and otherwise fails with the not-found usage error
listing all candidate names; with an empty candidate map both fail with the
`check.invariant` framework error before the not-found check. -/
theorem named_selection_lookup_or_not_found (loc : RepositoryLocation)
    (repo : ExternalRepository) (n : String) :
    (loc.repositories ≠ [] → ∀ r, lookupDict loc.repositories n = some r →
      get_external_repository_from_repo_location loc (some n) = .ok r) ∧
    (loc.repositories ≠ [] → lookupDict loc.repositories n = none →
      get_external_repository_from_repo_location loc (some n) =
        .error (.usage ("Repository \"" ++ n ++ "\" not found in location \"" ++ loc.name
          ++ "\". Found " ++ _sorted_quoted (loc.repositories.map Prod.fst) ++ " instead."))) ∧
    (loc.repositories = [] →
      get_external_repository_from_repo_location loc (some n) =
        .error (.checkFailed "There should be at least one repo.")) ∧
    (pipelineDict repo ≠ [] → ∀ ep, lookupDict (pipelineDict repo) n = some ep →
      get_external_pipeline_from_external_repo repo (some n) = .ok ep) ∧
    (pipelineDict repo ≠ [] → lookupDict (pipelineDict repo) n = none →
      get_external_pipeline_from_external_repo repo (some n) =
        .error (.usage ("Pipeline \"" ++ n ++ "\" not found in repository \"" ++ repo.name
          ++ "\". Found " ++ _sorted_quoted ((pipelineDict repo).map Prod.fst) ++ " instead."))) ∧
    (pipelineDict repo = [] →
      get_external_pipeline_from_external_repo repo (some n) = .error (.checkFailed "")) := by
  refine ⟨fun hne r hr => ?_, fun hne hr => ?_, fun he => ?_,
    fun hne ep hp => ?_, fun hne hp => ?_, fun he => ?_⟩
  · simp [get_external_repository_from_repo_location, List.isEmpty_iff, hne,
      RepositoryLocation.has_repository, RepositoryLocation.get_repository, hr]
  · simp [get_external_repository_from_repo_location, List.isEmpty_iff, hne,
      RepositoryLocation.has_repository, hr]
  · simp [get_external_repository_from_repo_location, List.isEmpty_iff, he]
  · simp [get_external_pipeline_from_external_repo, List.isEmpty_iff, hne, hp]
  · simp [get_external_pipeline_from_external_repo, List.isEmpty_iff, hne, hp]
  · simp [get_external_pipeline_from_external_repo, List.isEmpty_iff, he]

/-- C3 amended witness: on `locA` (one repository `r1`), name `r1` is returned
and name `zz` hits the not-found error; on `repoR1` the pipeline `p1` is
returned by name. -/
theorem named_selection_lookup_or_not_found_witness :
    get_external_repository_from_repo_location locA (some "r1") = .ok repoR1 ∧
    get_external_repository_from_repo_location locA (some "zz") =
      .error (.usage ("Repository \"zz\" not found in location \"" ++ locA.name
        ++ "\". Found " ++ _sorted_quoted (locA.repositories.map Prod.fst) ++ " instead.")) ∧
    get_external_pipeline_from_external_repo repoR1 (some "p1") = .ok pipeP1 :=
  ⟨(named_selection_lookup_or_not_found locA repoR1 "r1").1 (by decide) repoR1 rfl,
   (named_selection_lookup_or_not_found locA repoR1 "zz").2.1 (by decide) rfl,
   (named_selection_lookup_or_not_found locA repoR1 "p1").2.2.2.1 (by decide) pipeP1 rfl⟩

/-! ## C7: last-write-wins in the code-pointer dict -/

/-- Looking up a cons cell of an association-list dict. -/
theorem lookupDict_cons {α : Type} (a : String) (b : α) (rest : List (String × α)) (n : String) :
    lookupDict ((a, b) :: rest) n = if a == n then some b else lookupDict rest n := by
  by_cases h : (a == n) = true
  · simp [lookupDict, List.find?_cons, h]
  · simp [lookupDict, List.find?_cons, h]

/-- Looking up after a Python dict assignment: the assigned key now maps to the
new value, every other key is unchanged. -/
theorem lookupDict_dictInsert {α : Type} (d : List (String × α)) (key : String) (v : α)
    (n : String) :
    lookupDict (dictInsert d key v) n = if key == n then some v else lookupDict d n := by
  induction d with
  | nil => simp [dictInsert, lookupDict_cons, lookupDict]
  | cons p rest ih =>
    obtain ⟨k2, v2⟩ := p
    by_cases hk : (k2 == key) = true
    · have hks : k2 = key := by simpa using hk
      subst hks
      simp only [dictInsert, hk, if_true, lookupDict_cons]
      by_cases hn : (k2 == n) = true <;> simp [hn]
    · simp only [dictInsert, hk, Bool.false_eq_true, if_false, lookupDict_cons, ih]
      by_cases hn : (k2 == n) = true <;> by_cases hkn : (key == n) = true <;>
        simp_all

/-- Looking up the dict built by a comprehension: the value comes from the
last-enumerated entry bearing the key, if any. -/
theorem lookupDict_pyDict_aux {α β : Type} (f : β → String × α) (n : String) :
    ∀ (l : List β) (d : List (String × α)),
      lookupDict (l.foldl (fun acc b => dictInsert acc (f b).1 (f b).2) d) n =
        match l.reverse.find? (fun b => (f b).1 == n) with
        | some b => some (f b).2
        | none => lookupDict d n := by
  intro l
  induction l with
  | nil => intro d; simp
  | cons b bs ih =>
    intro d
    rw [List.foldl_cons, ih, List.reverse_cons, List.find?_append]
    cases hfind : bs.reverse.find? (fun b => (f b).1 == n) with
    | some u => simp [Option.or]
    | none =>
      by_cases hb : ((f b).1 == n) = true
      · simp [List.find?, hb, lookupDict_dictInsert]
      · simp [List.find?, hb, lookupDict_dictInsert]

/-- The comprehension form used by the source's three branches. -/
theorem lookupDict_pyDict {α β : Type} (f : β → String × α) (l : List β) (n : String) :
    lookupDict (pyDict (l.map f)) n =
      (l.reverse.find? (fun b => (f b).1 == n)).map (fun b => (f b).2) := by
  rw [pyDict, List.foldl_map, lookupDict_pyDict_aux]
  cases l.reverse.find? (fun b => (f b).1 == n) <;> simp [lookupDict]

/-- C7: for a file, module or package target, `_get_code_pointer_dict_from_kwargs`
builds the repository-name-to-pointer dict by comprehension, and a name that
two loadable targets share ends up holding the pointer built from the
last-enumerated such target: the lookup equals the first match over the
reversed enumeration. -/
theorem code_pointer_dict_last_write_wins (env : Env) (k : Kwargs) (glt : List LoadableTarget) :
    (strTruthy k.python_file = true → strTruthy k.module_name = false →
      strTruthy k.package_name = false →
      _get_code_pointer_dict_from_kwargs env glt k =
        .ok (pyDict (glt.map fun lt => (lt.repoName,
          CodePointer.FileCodePointer (k.python_file.getD "") lt.attr
            (get_working_directory_from_kwargs env k)))) ∧
      ∀ n, lookupDict (pyDict (glt.map fun lt => (lt.repoName,
          CodePointer.FileCodePointer (k.python_file.getD "") lt.attr
            (get_working_directory_from_kwargs env k)))) n =
        (glt.reverse.find? fun lt => lt.repoName == n).map fun lt =>
          CodePointer.FileCodePointer (k.python_file.getD "") lt.attr
            (get_working_directory_from_kwargs env k)) ∧
    (strTruthy k.python_file = false → strTruthy k.module_name = true →
      strTruthy k.package_name = false → strTruthy k.working_directory = false →
      _get_code_pointer_dict_from_kwargs env glt k =
        .ok (pyDict (glt.map fun lt => (lt.repoName,
          CodePointer.ModuleCodePointer (k.module_name.getD "") lt.attr))) ∧
      ∀ n, lookupDict (pyDict (glt.map fun lt => (lt.repoName,
          CodePointer.ModuleCodePointer (k.module_name.getD "") lt.attr))) n =
        (glt.reverse.find? fun lt => lt.repoName == n).map fun lt =>
          CodePointer.ModuleCodePointer (k.module_name.getD "") lt.attr) ∧
    (strTruthy k.python_file = false → strTruthy k.module_name = false →
      strTruthy k.package_name = true → strTruthy k.working_directory = false →
      _get_code_pointer_dict_from_kwargs env glt k =
        .ok (pyDict (glt.map fun lt => (lt.repoName,
          CodePointer.PackageCodePointer (k.package_name.getD "") lt.attr))) ∧
      ∀ n, lookupDict (pyDict (glt.map fun lt => (lt.repoName,
          CodePointer.PackageCodePointer (k.package_name.getD "") lt.attr))) n =
        (glt.reverse.find? fun lt => lt.repoName == n).map fun lt =>
          CodePointer.PackageCodePointer (k.package_name.getD "") lt.attr) := by
  refine ⟨fun hf hm hp => ⟨?_, fun n => ?_⟩, fun hf hm hp hw => ⟨?_, fun n => ?_⟩,
    fun hf hm hp hw => ⟨?_, fun n => ?_⟩⟩
  · simp [_get_code_pointer_dict_from_kwargs, check_none_eq, Kwargs.truthy, hf, hm, hp]
  · exact lookupDict_pyDict _ glt n
  · simp [_get_code_pointer_dict_from_kwargs, check_none_eq, Kwargs.truthy, hf, hm, hp, hw]
  · exact lookupDict_pyDict _ glt n
  · simp [_get_code_pointer_dict_from_kwargs, check_none_eq, Kwargs.truthy, hf, hm, hp, hw]
  · exact lookupDict_pyDict _ glt n

/-- C7 witness: two loadable targets both named `r`; the dict holds the pointer
from the second (`attr = "b"`). -/
theorem code_pointer_dict_last_write_wins_witness :
    _get_code_pointer_dict_from_kwargs env0 gltDup kwFile =
      .ok (pyDict (gltDup.map fun lt => (lt.repoName,
        CodePointer.FileCodePointer (kwFile.python_file.getD "") lt.attr
          (get_working_directory_from_kwargs env0 kwFile)))) ∧
    lookupDict (pyDict (gltDup.map fun lt => (lt.repoName,
        CodePointer.FileCodePointer (kwFile.python_file.getD "") lt.attr
          (get_working_directory_from_kwargs env0 kwFile)))) "r" =
      some (.FileCodePointer "repo.py" "b" (some "/cwd")) := by
  have h := (code_pointer_dict_last_write_wins env0 kwFile gltDup).1 rfl rfl rfl
  exact ⟨h.1, by rw [h.2 "r"]; rfl⟩

/-! ## C4: the short-circuit origin construction -/

/-- C4 counterexample: a module target with an attribute, no repository name,
and a stray working directory satisfies the claim's hypothesis (attribute
given, no repository, exactly one of file/module/package), yet
`get_repository_python_origin_from_kwargs` produces no origin: the
short-circuit's exclusivity check rejects the working directory with the
generic usage error, for any loadable-target enumeration. -/
theorem origin_short_circuit_counterexample :
    strTruthy kwC4.attr = true ∧ strTruthy kwC4.repository = false ∧
    strTruthy kwC4.python_file = false ∧ strTruthy kwC4.module_name = true ∧
    strTruthy kwC4.package_name = false ∧
    get_repository_python_origin_from_kwargs env0 [] kwC4 =
      .error (.usage invalidCliArgsMsg) :=
  ⟨rfl, rfl, rfl, rfl, rfl, rfl⟩

/-- C4 amended: with an attribute, no repository name, exactly one of
file/module/package set — and, for a module or package target, no working
directory given — the origin is built directly from the single code pointer of
that target, independently of the loadable-target enumeration (so also for a
repository that does not exist or cannot load). -/
theorem origin_short_circuit_builds_direct_pointer (env : Env) (k : Kwargs)
    (hattr : strTruthy k.attr = true) (hrepo : strTruthy k.repository = false) :
    (strTruthy k.python_file = true → strTruthy k.module_name = false →
      strTruthy k.package_name = false → ∀ glt,
      get_repository_python_origin_from_kwargs env glt k =
        .ok ⟨env.executablePath, .FileCodePointer (k.python_file.getD "") (k.attr.getD "")
          (get_working_directory_from_kwargs env k)⟩) ∧
    (strTruthy k.python_file = false → strTruthy k.module_name = true →
      strTruthy k.package_name = false → strTruthy k.working_directory = false → ∀ glt,
      get_repository_python_origin_from_kwargs env glt k =
        .ok ⟨env.executablePath,
          .ModuleCodePointer (k.module_name.getD "") (k.attr.getD "")⟩) ∧
    (strTruthy k.python_file = false → strTruthy k.module_name = false →
      strTruthy k.package_name = true → strTruthy k.working_directory = false → ∀ glt,
      get_repository_python_origin_from_kwargs env glt k =
        .ok ⟨env.executablePath,
          .PackageCodePointer (k.package_name.getD "") (k.attr.getD "")⟩) := by
  refine ⟨fun hf hm hp glt => ?_, fun hf hm hp hw glt => ?_, fun hf hm hp hw glt => ?_⟩
  · simp [get_repository_python_origin_from_kwargs, check_none_eq, Kwargs.truthy,
      hattr, hrepo, hf, hm, hp]
  · simp [get_repository_python_origin_from_kwargs, check_none_eq, Kwargs.truthy,
      hattr, hrepo, hf, hm, hp, hw]
  · simp [get_repository_python_origin_from_kwargs, check_none_eq, Kwargs.truthy,
      hattr, hrepo, hf, hm, hp, hw]

/-- C4 amended witness: module `m` with attribute `a` and an empty enumeration
still yields the direct module-pointer origin. -/
theorem origin_short_circuit_builds_direct_pointer_witness :
    get_repository_python_origin_from_kwargs env0 [] kwC4a =
      .ok ⟨"/python", .ModuleCodePointer "m" "a"⟩ := by
  rw [(origin_short_circuit_builds_direct_pointer env0 kwC4a rfl rfl).2.1 rfl rfl rfl rfl []]
  rfl

/-! ## C1: conflicting targets always fail -/

/-- `keyTable` of a kwargs' per-key truthiness values is its truthiness map. -/
theorem keyTable_truthy (k : Kwargs) :
    keyTable (k.truthy .workspace) (k.truthy .python_file) (k.truthy .working_directory)
      (k.truthy .empty_working_directory) (k.truthy .package_name) (k.truthy .module_name)
      (k.truthy .attr) (k.truthy .repository_yaml) (k.truthy .grpc_host) (k.truthy .grpc_port)
      (k.truthy .grpc_socket) = k.truthy := by
  funext key
  cases key <;> rfl

/-- Exhaustive boolean core: over every truthiness assignment, a conflicting
pair of options drives the branch shape into the conflict outcome. -/
theorem shape_core : ∀ ws pf wd ewd pkg mn at_ ry gh gp gs ew ye : Bool,
    hasConflictingTargets (keyTable ws pf wd ewd pkg mn at_ ry gh gp gs) = true →
    shapeOutcome ew ye (keyTable ws pf wd ewd pkg mn at_ ry gh gp gs) = .conflictOrInvalid := by
  decide

/-- The branch shape faithfully predicts the conflict result of
`created_workspace_load_target`. -/
theorem shape_conflict_created (env : Env) (k : Kwargs)
    (h : shapeOutcome k.empty_workspace env.workspaceYamlExists k.truthy = .conflictOrInvalid) :
    created_workspace_load_target env k = .error (.usage invalidCliArgsMsg) := by
  unfold shapeOutcome at h
  unfold created_workspace_load_target
  simp only [are_all_keys_empty]
  by_cases h0 : (WORKSPACE_CLI_ARGS.all fun key => !k.truthy key) = true
  · rw [if_pos h0] at h
    exfalso
    by_cases he : k.empty_workspace = true <;> by_cases hy : env.workspaceYamlExists = true <;>
      simp [he, hy] at h
  · rw [if_neg h0] at h ⊢
    by_cases h1 : k.truthy .workspace = true
    · rw [if_pos h1] at h ⊢
      rw [check_none_eq]
      by_cases hc : workspaceBranchChecks.any k.truthy = true
      · rw [if_pos hc]
      · rw [if_neg hc] at h
        exact absurd h (by decide)
    · rw [if_neg h1] at h ⊢
      by_cases h2 : k.truthy .python_file = true
      · rw [if_pos h2] at h ⊢
        rw [check_none_eq]
        by_cases hc : pythonFileBranchChecks.any k.truthy = true
        · rw [if_pos hc]
        · rw [if_neg hc] at h
          exact absurd h (by decide)
      · rw [if_neg h2] at h ⊢
        by_cases h3 : k.truthy .module_name = true
        · rw [if_pos h3] at h ⊢
          rw [check_none_eq]
          by_cases hc : moduleBranchChecks.any k.truthy = true
          · rw [if_pos hc]
          · rw [if_neg hc] at h
            exact absurd h (by decide)
        · rw [if_neg h3] at h ⊢
          by_cases h4 : k.truthy .package_name = true
          · rw [if_pos h4] at h ⊢
            rw [check_none_eq]
            by_cases hc : packageBranchChecks.any k.truthy = true
            · rw [if_pos hc]
            · rw [if_neg hc] at h
              exact absurd h (by decide)
          · rw [if_neg h4] at h ⊢
            by_cases h5 : k.truthy .grpc_port = true
            · rw [if_pos h5] at h ⊢
              rw [check_none_eq]
              by_cases hc : grpcPortBranchChecks.any k.truthy = true
              · rw [if_pos hc]
              · rw [if_neg hc] at h
                exact absurd h (by decide)
            · rw [if_neg h5] at h ⊢
              by_cases h6 : k.truthy .grpc_socket = true
              · rw [if_pos h6] at h ⊢
                rw [check_none_eq]
                by_cases hc : grpcSocketBranchChecks.any k.truthy = true
                · rw [if_pos hc]
                · rw [if_neg hc] at h
                  exact absurd h (by decide)
              · rw [if_neg h6]

/-- C1: any option map holding two or more options from different
mutual-exclusion groups of the resolution order (the six governing options
plus each group's forbidden companions) makes
`created_workspace_load_target` fail with the conflicting-targets usage error
instead of returning a load target. -/
theorem conflicting_targets_always_usage_error (env : Env) (k : Kwargs)
    (h : hasConflictingTargets k.truthy = true) :
    created_workspace_load_target env k = .error (.usage invalidCliArgsMsg) := by
  apply shape_conflict_created
  have hc := shape_core (k.truthy .workspace) (k.truthy .python_file)
    (k.truthy .working_directory) (k.truthy .empty_working_directory) (k.truthy .package_name)
    (k.truthy .module_name) (k.truthy .attr) (k.truthy .repository_yaml) (k.truthy .grpc_host)
    (k.truthy .grpc_port) (k.truthy .grpc_socket) k.empty_workspace env.workspaceYamlExists
  rw [keyTable_truthy] at hc
  exact hc h

/-- C1 witness: a python file together with a module name is a conflict and
fails with the usage error. -/
theorem conflicting_targets_always_usage_error_witness :
    hasConflictingTargets kwC1.truthy = true ∧
    created_workspace_load_target env0 kwC1 = .error (.usage invalidCliArgsMsg) :=
  ⟨by decide, conflicting_targets_always_usage_error env0 kwC1 (by decide)⟩

end CliTarget
